import Mathlib

/-!
Verification development for the School WebTV broadcast display system.

The definitions below are a shallow embedding of the display client's
settings-sync core:

* `js/scheduled-slides.js` — slide scheduling (`shouldShowSlide`,
  `filterScheduledSlides`);
* `js/theme-loader.js` — the settings appliers (`applyTheme`,
  `applyGeneralSettings`, `applyLivestreamSettings`, `applySlides`,
  `applyAllSettings`), the localStorage fallback
  (`loadFromLocalStorage`, `loadSettingsFromAPI`), the SSE message
  dispatcher (`eventSource.onmessage`) and the reconnect logic
  (`eventSource.onerror` / `eventSource.onopen`);
* `js/slideshow.js` — the slideshow restart path used by the appliers.

JavaScript idioms are rendered as follows: a possibly-`undefined` field
becomes an `Option`; JS truthiness of a string (`if (x)`) becomes
`strTruthy`, of a number becomes `natTruthy`; DOM state (CSS custom
properties, the slide container's children, the school-name label, the
page title) and timer state (slideshow interval, livestream monitor
interval, pending reconnect timeout) are explicit record fields.
-/

/-! ## Scheduled slides (`js/scheduled-slides.js`) -/

/-- A slide schedule as stored in `scheduledSlides` entries.
`startTime`/`endTime` hold the result of `"HH:MM".split(':').map(Number)`
on a well-formed, non-empty time string (absent or empty strings are
`none`, matching the JS truthiness guard `if (schedule.startTime)`).
`startDate`/`endDate` are `YYYY-MM-DD` strings compared with JS string
ordering, which Lean's lexicographic `String` order matches on ASCII. -/
structure Schedule where
  enabled : Bool
  startDate : Option String
  endDate : Option String
  daysOfWeek : Option (List Nat)
  startTime : Option (Nat × Nat)
  endTime : Option (Nat × Nat)
deriving DecidableEq, Repr

/-- The moment `new Date()` observed by `shouldShowSlide`:
`hours`/`minutes` from `getHours()`/`getMinutes()`, `day` from
`getDay()`, `dateStr` the `YYYY-MM-DD` part of `toISOString()`. -/
structure Now where
  hours : Nat
  minutes : Nat
  day : Nat
  dateStr : String
deriving DecidableEq, Repr

/-- `now.getHours() * 60 + now.getMinutes()`. -/
def Now.currentTime (n : Now) : Nat := n.hours * 60 + n.minutes

/-- Guard `schedule.startDate && currentDate < schedule.startDate`. -/
def dateBeforeStart (sch : Schedule) (now : Now) : Bool :=
  match sch.startDate with
  | some sd => decide (now.dateStr < sd)
  | none => false

/-- Guard `schedule.endDate && currentDate > schedule.endDate`. -/
def dateAfterEnd (sch : Schedule) (now : Now) : Bool :=
  match sch.endDate with
  | some ed => decide (ed < now.dateStr)
  | none => false

/-- Guard `schedule.daysOfWeek && schedule.daysOfWeek.length > 0`
followed by `!schedule.daysOfWeek.includes(currentDay)`. -/
def dayExcluded (sch : Schedule) (now : Now) : Bool :=
  match sch.daysOfWeek with
  | some l => !l.isEmpty && !(l.contains now.day)
  | none => false

/-- Guard `schedule.startTime` present and `currentTime < startMinutes`. -/
def timeBeforeStart (sch : Schedule) (now : Now) : Bool :=
  match sch.startTime with
  | some (h, m) => decide (now.currentTime < h * 60 + m)
  | none => false

/-- Guard `schedule.endTime` present and `currentTime > endMinutes`. -/
def timeAfterEnd (sch : Schedule) (now : Now) : Bool :=
  match sch.endTime with
  | some (h, m) => decide (h * 60 + m < now.currentTime)
  | none => false

/-- `shouldShowSlide` from `js/scheduled-slides.js` lines 33–64: the
`none` case is the `!schedule` guard, then the early-`false` returns in
source order (disabled, date range, days of week, time range). -/
def shouldShowSlide (schedule : Option Schedule) (now : Now) : Bool :=
  match schedule with
  | none => false
  | some sch =>
    if !sch.enabled then false
    else if dateBeforeStart sch now then false
    else if dateAfterEnd sch now then false
    else if dayExcluded sch now then false
    else if timeBeforeStart sch now then false
    else if timeAfterEnd sch now then false
    else true

/-- The property stated by the spec for `shouldShowSlide`, written from
the claim's words (not from the source): the current moment does not
fall before `startDate`/`startTime`, does not fall after
`endDate`/`endTime`, and the day-of-week bound is absent or satisfied. -/
def boundsSatisfied (sch : Schedule) (now : Now) : Bool :=
  !(dateBeforeStart sch now || timeBeforeStart sch now) &&
  !(dateAfterEnd sch now || timeAfterEnd sch now) &&
  !dayExcluded sch now

/-- An entry of the module-level `scheduledSlides` array. -/
structure ScheduledEntry where
  slideIndex : Nat
  schedule : Option Schedule
deriving DecidableEq, Repr

/-- `filterScheduledSlides` from `js/scheduled-slides.js` lines 79–93
(the array branch; the non-array guard returns the input unchanged).
`allSlides.filter((slide, index) => ...)` is rendered as a filter over
the enumerated list. -/
def filterScheduledSlides (allSlides : List String)
    (scheduled : List ScheduledEntry) (now : Now) : List String :=
  ((allSlides.enum.filter (fun p =>
      match scheduled.find? (fun e => e.slideIndex == p.1) with
      | none => true
      | some e => shouldShowSlide e.schedule now)).map Prod.snd)

/-! ### C3: `shouldShowSlide` versus its stated bound semantics -/

/-- The concrete disabled schedule used to refute C3 as stated. -/
def disabledBlankSchedule : Schedule :=
  { enabled := false, startDate := none, endDate := none,
    daysOfWeek := none, startTime := none, endTime := none }

/-- A concrete moment (a Tuesday morning). -/
def sampleNow : Now :=
  { hours := 9, minutes := 30, day := 2, dateStr := "2026-03-10" }

/-! ## Hex colors and the theme applier (`js/theme-loader.js` 21–76) -/

/-- JS truthiness of an optional string field: absent, `null` and the
empty string are all falsy. -/
def strTruthy (o : Option String) : Option String :=
  match o with
  | some s => if s = "" then none else some s
  | none => none

/-- JS truthiness of an optional numeric field: absent and `0` are
falsy. -/
def natTruthy (o : Option Nat) : Option Nat :=
  match o with
  | some n => if n = 0 then none else some n
  | none => none

/-- A character accepted by the `[a-f\d]` class with the `i` flag. -/
def isHexDigit (c : Char) : Bool :=
  c.isDigit || ('a' ≤ c && c ≤ 'f') || ('A' ≤ c && c ≤ 'F')

/-- Value of one hex digit, as `parseInt(_, 16)` assigns it. -/
def hexVal (c : Char) : Nat :=
  if c.isDigit then c.toNat - '0'.toNat
  else if 'a' ≤ c && c ≤ 'f' then c.toNat - 'a'.toNat + 10
  else c.toNat - 'A'.toNat + 10

/-- The optional leading `#` consumed by `#?` in the regex. -/
def stripHash : List Char → List Char
  | '#' :: rest => rest
  | cs => cs

/-- An RGB triple as returned by `hexToRgb`. -/
structure Rgb where
  r : Nat
  g : Nat
  b : Nat
deriving DecidableEq, Repr

/-- `hexToRgb` from `js/theme-loader.js` lines 21–28: the regex
`/^#?([a-f\d]{2})([a-f\d]{2})([a-f\d]{2})$/i` matches exactly when,
after the optional `#`, the string is six hex digits; each captured
pair is converted with `parseInt(_, 16)`; on no match the fallback
`{r: 0, g: 0, b: 0}` is returned. -/
def hexToRgb (hex : String) : Rgb :=
  match stripHash hex.toList with
  | [c1, c2, c3, c4, c5, c6] =>
    if [c1, c2, c3, c4, c5, c6].all isHexDigit then
      { r := hexVal c1 * 16 + hexVal c2,
        g := hexVal c3 * 16 + hexVal c4,
        b := hexVal c5 * 16 + hexVal c6 }
    else { r := 0, g := 0, b := 0 }
  | _ => { r := 0, g := 0, b := 0 }

/-- Whether the regex of `hexToRgb` matches: six hex digits after an
optional leading `#`. -/
def isValidHexColor (hex : String) : Bool :=
  (stripHash hex.toList).length == 6 &&
  (stripHash hex.toList).all isHexDigit

/-- A `customTheme` record (`js/theme-loader.js` lines 41–70): color
fields are hex strings, opacity fields integer percentages 0–100. -/
structure Theme where
  bgGradientStart : Option String
  bgGradientEnd : Option String
  mainContentBg : Option String
  mainContentOpacity : Option Nat
  weatherPanelBg : Option String
  weatherPanelOpacity : Option Nat
  bottomPanelBg : Option String
  bottomPanelOpacity : Option Nat
  accentColor : Option String
deriving DecidableEq, Repr

/-- A CSS custom-property value: either a raw string written through
`setProperty`, or the `rgba(r, g, b, opacityPct / 100)` string built by
the panel branches (kept structured so the alpha stays exact). -/
inductive CssVal where
  | raw (s : String)
  | rgba (r g b opacityPct : Nat)
deriving DecidableEq, Repr

/-- The CSS custom properties written by `applyTheme`:
`--color-bg-gradient-start`, `--color-bg-gradient-end`,
`--color-panel-bg`, `--color-panel-dark`, `--color-panel-darker`,
`--color-accent-gold`. `none` means the property was never set. -/
@[ext] structure CssVars where
  bgGradientStart : Option CssVal
  bgGradientEnd : Option CssVal
  panelBg : Option CssVal
  panelDark : Option CssVal
  panelDarker : Option CssVal
  accentGold : Option CssVal
deriving DecidableEq, Repr

/-- The `rgba(...)` value built from a hex string and an opacity
percentage, as in `rgba(${rgb.r}, ${rgb.g}, ${rgb.b}, ${opacity})`
with `opacity = pct / 100`. -/
def panelRgba (bg : String) (pct : Nat) : CssVal :=
  CssVal.rgba (hexToRgb bg).r (hexToRgb bg).g (hexToRgb bg).b pct

/-- The body of `applyTheme` (`js/theme-loader.js` lines 41–70) at the
level of the CSS variables. The source is five independent guarded
blocks, each writing properties no other block touches and reading only
the theme, so they are rendered as one simultaneous record update;
each field's formula is the transcription of its block.
Gradient and accent guards are JS truthiness tests; the panel guards
are `!== undefined` tests on both the color and the opacity. -/
def themeWrite (th : Theme) (c : CssVars) : CssVars where
  bgGradientStart :=
    match strTruthy th.bgGradientStart, strTruthy th.bgGradientEnd with
    | some gs, some _ => some (CssVal.raw gs)
    | _, _ => c.bgGradientStart
  bgGradientEnd :=
    match strTruthy th.bgGradientStart, strTruthy th.bgGradientEnd with
    | some _, some ge => some (CssVal.raw ge)
    | _, _ => c.bgGradientEnd
  panelBg :=
    match th.mainContentBg, th.mainContentOpacity with
    | some bg, some op => some (panelRgba bg op)
    | _, _ => c.panelBg
  panelDark :=
    match th.weatherPanelBg, th.weatherPanelOpacity with
    | some bg, some op => some (panelRgba bg op)
    | _, _ => c.panelDark
  panelDarker :=
    match th.bottomPanelBg, th.bottomPanelOpacity with
    | some bg, some op => some (panelRgba bg op)
    | _, _ => c.panelDarker
  accentGold :=
    match strTruthy th.accentColor with
    | some a => some (CssVal.raw a)
    | none => c.accentGold

/-- `themeWrite` for the optional argument of `applyTheme`: the
`if (!theme) return` guard. -/
def themeWriteO (t : Option Theme) (c : CssVars) : CssVars :=
  match t with
  | some th => themeWrite th c
  | none => c

/-! ## The display state

One record per consumer the appliers touch: `window.CONFIG`, the CSS
variables, the slideshow (container children, active index, interval
timer) and the livestream monitor. -/

/-- One child of `#slideshowContainer`: an element with class `slide`,
its inner HTML, and whether it carries the `active` class. -/
@[ext] structure SlideElem where
  content : String
  active : Bool
deriving DecidableEq, Repr

/-- Slideshow state from `js/slideshow.js`: the container's children,
`currentSlide`, and the auto-advance timer (`some interval` when a
`setInterval(nextSlide, interval)` is live, `none` when stopped). -/
@[ext] structure ShwState where
  dom : List SlideElem
  cur : Nat
  timer : Option Nat
deriving DecidableEq, Repr

/-- Livestream consumer state. `window.Livestream` itself is not in the
repository snapshot (only `livestream.js` is referenced); its
operations are modelled from the spec below. `monitorTimers` counts
live monitor interval timers (polls occur exactly when it is nonzero),
`monitorInterval` the interval they poll at, `active` is
`Livestream.isActive()`, `ssVisible` whether the slideshow container is
the visible display. -/
@[ext] structure LiveState where
  monitorTimers : Nat
  monitorInterval : Nat
  active : Bool
  ssVisible : Bool
deriving DecidableEq, Repr

/-- The `window.CONFIG` fields the settings appliers write. -/
@[ext] structure Config where
  schoolName : String
  slideshowInterval : Nat
  livestreamUrl : Option String
  autoDetect : Bool
  livestreamCheckInterval : Nat
  useImageSlides : Bool
deriving DecidableEq, Repr

/-- The whole display state the appliers act on. `schoolNameLabel` is
the text of the `#schoolName` element, `pageTitle` is
`document.title`. -/
@[ext] structure DisplayState where
  css : CssVars
  config : Config
  schoolNameLabel : String
  pageTitle : String
  shw : ShwState
  live : LiveState
deriving DecidableEq, Repr

/-! ## Slideshow restart (`js/slideshow.js` 128–188) -/

/-- `showSlide(0)`'s effect on the container children: every slide
loses the `active` class, then the slide at index 0 gains it.
`i` is the index of the head of the remaining list. -/
def setActiveFrom (i : Nat) : List SlideElem → List SlideElem
  | [] => []
  | e :: t => { e with active := i == 0 } :: setActiveFrom (i + 1) t

/-- `restartSlideshow` = `stopSlideshow(); initSlideshow()`:
the timer is cleared; then, if the container has slides,
`showSlide(0)` runs and a new timer starts with
`CONFIG.SLIDESHOW_INTERVAL || 8000` (`cfgInterval` is the config value
at call time; `0` stands for unset/falsy). -/
def restartShw (cfgInterval : Nat) (w : ShwState) : ShwState :=
  if w.dom.length > 0 then
    { dom := setActiveFrom 0 w.dom, cur := 0,
      timer := some (if cfgInterval = 0 then 8000 else cfgInterval) }
  else { w with timer := none }

/-- `window.Slideshow.restart()` on the display state: reads
`CONFIG.SLIDESHOW_INTERVAL` from the state's own config. -/
def slideshowRestart (s : DisplayState) : DisplayState :=
  { s with shw := restartShw s.config.slideshowInterval s.shw }

/-! ## The four domain appliers (`js/theme-loader.js` 34–215) -/

/-- `applyTheme` (lines 34–76): the `if (!theme) return` guard, then
the CSS-variable writes of `themeWrite`. -/
def applyTheme (t : Option Theme) (s : DisplayState) : DisplayState :=
  match t with
  | none => s
  | some th => { s with css := themeWrite th s.css }

/-- A `generalConfig` record (lines 118–147). -/
structure GeneralConfig where
  schoolName : Option String
  slideshowInterval : Option Nat
deriving DecidableEq, Repr

/-- `applyGeneralSettings` (lines 118–147): `if (config.schoolName)`
writes `CONFIG.SCHOOL_NAME` and the `#schoolName` element (and nothing
else — in particular not `document.title`); `if
(config.slideshowInterval)` writes `CONFIG.SLIDESHOW_INTERVAL` and
calls `Slideshow.restart()`. -/
def applyGeneralSettings (c : Option GeneralConfig) (s : DisplayState) :
    DisplayState :=
  match c with
  | none => s
  | some g =>
    let s1 :=
      match strTruthy g.schoolName with
      | some n => { s with config.schoolName := n, schoolNameLabel := n }
      | none => s
    match natTruthy g.slideshowInterval with
    | some v => slideshowRestart { s1 with config.slideshowInterval := v }
    | none => s1

/-- A `livestreamConfig` record (lines 153–190). `enabled` and
`autoDetect` absorb the `|| false` coercions of the source. -/
structure LivestreamConfig where
  enabled : Bool
  url : Option String
  autoDetect : Bool
  checkInterval : Option Nat
deriving DecidableEq, Repr

/-- Modelled from the spec: `Livestream.stopMonitoring()` — "stop any
livestream auto-detection monitor"; clears the monitor's interval
timer(s) (`livestream.js` is not in the snapshot). -/
def livestreamStopMonitoring (s : DisplayState) : DisplayState :=
  { s with live.monitorTimers := 0 }

/-- Modelled from the spec: `Livestream.startMonitoring()` — "(re)start
the monitor at the configured interval"; registers one more interval
timer polling at `CONFIG.LIVESTREAM_CHECK_INTERVAL`
(`livestream.js` is not in the snapshot). -/
def livestreamStartMonitoring (s : DisplayState) : DisplayState :=
  { s with live.monitorTimers := s.live.monitorTimers + 1,
           live.monitorInterval := s.config.livestreamCheckInterval }

/-- Modelled from the spec: `Livestream.show(null)` — "if a livestream
is currently being displayed, switch back to the slideshow"
(`livestream.js` is not in the snapshot). -/
def livestreamShowNull (s : DisplayState) : DisplayState :=
  { s with live.active := false, live.ssVisible := true }

/-- `applyLivestreamSettings` (lines 153–190): the enabled branch
writes `CONFIG.LIVESTREAM_URL = config.url || null`,
`CONFIG.AUTO_DETECT_LIVESTREAM`, `CONFIG.LIVESTREAM_CHECK_INTERVAL =
config.checkInterval || 60000`, stops monitoring and, if `autoDetect`,
starts it again; the disabled branch clears the URL and auto-detect
flag, stops monitoring and, if a livestream is showing, switches back
to the slideshow. -/
def applyLivestreamSettings (c : Option LivestreamConfig)
    (s : DisplayState) : DisplayState :=
  match c with
  | none => s
  | some cfg =>
    if cfg.enabled then
      let s1 := { s with
        config.livestreamUrl := strTruthy cfg.url,
        config.autoDetect := cfg.autoDetect,
        config.livestreamCheckInterval := (natTruthy cfg.checkInterval).getD 60000 }
      let s2 := livestreamStopMonitoring s1
      if cfg.autoDetect then livestreamStartMonitoring s2 else s2
    else
      let s1 := { s with
        config.livestreamUrl := none,
        config.autoDetect := false }
      let s2 := livestreamStopMonitoring s1
      if s2.live.active then livestreamShowNull s2 else s2

/-- The value of `customSlides` as found in the bundle: either an array
of slide records (`content` strings) or some non-array JSON value,
which the `Array.isArray` guard rejects. -/
inductive SlidesVal where
  | arr (slides : List String)
  | notArray
deriving DecidableEq, Repr

/-- The container children built by the `slides.forEach` loop of
`applySlides`: one `article.slide` per record, `active` on index 0. -/
def buildSlides (i : Nat) : List String → List SlideElem
  | [] => []
  | c :: t => { content := c, active := i == 0 } :: buildSlides (i + 1) t

/-- `applySlides` (lines 82–112): the guard
`if (!slides || !Array.isArray(slides) || slides.length === 0) return`
leaves everything untouched; otherwise the container is cleared and
rebuilt from the list and `Slideshow.restart()` runs (the
document-ready path; on the `loading` path the same call is deferred to
`DOMContentLoaded`). -/
def applySlides (v : Option SlidesVal) (s : DisplayState) : DisplayState :=
  match v with
  | none => s
  | some SlidesVal.notArray => s
  | some (SlidesVal.arr l) =>
    if l.isEmpty then s
    else slideshowRestart { s with shw.dom := buildSlides 0 l }

/-- The value of `USE_IMAGE_SLIDES` in a bundle: arbitrary JSON,
compared against `true` and `'true'`. -/
inductive UisVal where
  | bool (b : Bool)
  | str (s : String)
deriving DecidableEq, Repr

/-- `settings.USE_IMAGE_SLIDES === true || === 'true'`. -/
def uisCoerce (v : UisVal) : Bool :=
  match v with
  | UisVal.bool b => b
  | UisVal.str s => s == "true"

/-- The `USE_IMAGE_SLIDES` step of `applyAllSettings` (lines 211–214):
only runs when the key is `!== undefined`. -/
def applyUseImageSlides (u : Option UisVal) (s : DisplayState) : DisplayState :=
  match u with
  | none => s
  | some v => { s with config.useImageSlides := uisCoerce v }

/-- A full `SettingsBundle` as consumed by `applyAllSettings`. -/
structure SettingsBundle where
  customTheme : Option Theme
  generalConfig : Option GeneralConfig
  livestreamConfig : Option LivestreamConfig
  customSlides : Option SlidesVal
  useImageSlides : Option UisVal
deriving DecidableEq, Repr

/-- The `{}` that `settings = allSettings || {}` falls back to. -/
def emptyBundle : SettingsBundle :=
  { customTheme := none, generalConfig := none, livestreamConfig := none,
    customSlides := none, useImageSlides := none }

/-- `applyAllSettings` (lines 196–215), in source order: theme, general
config, livestream config, slides (document-ready path), slide mode. -/
def applyAllSettings (a : Option SettingsBundle) (s : DisplayState) :
    DisplayState :=
  let b := a.getD emptyBundle
  applyUseImageSlides b.useImageSlides
    (applySlides b.customSlides
      (applyLivestreamSettings b.livestreamConfig
        (applyGeneralSettings b.generalConfig
          (applyTheme b.customTheme s))))

/-! ## Per-field action of each applier

Every applier writes a fixed group of state fields and leaves the rest
alone; the lemmas below record, for each applier, what each group of
the state becomes. They drive the idempotence proof of C2 and the
evaluation lemmas of the other claims. -/

/-- The school name that `applyGeneralSettings` leaves behind. -/
def gName (c : Option GeneralConfig) : Option String :=
  match c with
  | some g => strTruthy g.schoolName
  | none => none

/-- The slideshow interval that `applyGeneralSettings` leaves behind. -/
def gInt (c : Option GeneralConfig) : Option Nat :=
  match c with
  | some g => natTruthy g.slideshowInterval
  | none => none

/-- New school name, or the old one when none is applied. -/
def nameW (c : Option GeneralConfig) (old : String) : String :=
  (gName c).getD old

/-- New slideshow interval, or the old one when none is applied. -/
def intW (c : Option GeneralConfig) (old : Nat) : Nat :=
  (gInt c).getD old

/-- `applyGeneralSettings`' effect on the slideshow state: a restart at
the new interval exactly when one was applied. -/
def agShw (c : Option GeneralConfig) (w : ShwState) : ShwState :=
  match gInt c with
  | some v => restartShw v w
  | none => w

/-- `applyGeneralSettings`' effect on `window.CONFIG`. -/
def agConfW (c : Option GeneralConfig) (k : Config) : Config :=
  { k with schoolName := nameW c k.schoolName,
           slideshowInterval := intW c k.slideshowInterval }

/-- `applyLivestreamSettings`' effect on `window.CONFIG`. -/
def lsConfW (c : Option LivestreamConfig) (k : Config) : Config :=
  match c with
  | none => k
  | some cfg =>
    if cfg.enabled then
      { k with livestreamUrl := strTruthy cfg.url,
               autoDetect := cfg.autoDetect,
               livestreamCheckInterval := (natTruthy cfg.checkInterval).getD 60000 }
    else
      { k with livestreamUrl := none, autoDetect := false }

/-- `applyLivestreamSettings`' effect on the livestream consumer. -/
def lsLiveW (c : Option LivestreamConfig) (x : LiveState) : LiveState :=
  match c with
  | none => x
  | some cfg =>
    if cfg.enabled then
      if cfg.autoDetect then
        { x with monitorTimers := 1,
                 monitorInterval := (natTruthy cfg.checkInterval).getD 60000 }
      else { x with monitorTimers := 0 }
    else
      { x with monitorTimers := 0, active := false,
               ssVisible := if x.active then true else x.ssVisible }

/-- `applySlides`' effect on the slideshow state, given the value of
`CONFIG.SLIDESHOW_INTERVAL` at call time. -/
def aslShw (v : Option SlidesVal) (cfgInterval : Nat) (w : ShwState) :
    ShwState :=
  match v with
  | some (SlidesVal.arr l) =>
    if l.isEmpty then w
    else restartShw cfgInterval { w with dom := buildSlides 0 l }
  | _ => w

/-- `USE_IMAGE_SLIDES` after the slide-mode step. -/
def uisW (u : Option UisVal) (old : Bool) : Bool :=
  match u with
  | some v => uisCoerce v
  | none => old

/-- The slide-mode step's effect on `window.CONFIG`. -/
def uisConfW (u : Option UisVal) (k : Config) : Config :=
  { k with useImageSlides := uisW u k.useImageSlides }

/-- The concrete invalid color used in the C9 witness. -/
def invalidTheme : Theme :=
  { bgGradientStart := none, bgGradientEnd := none,
    mainContentBg := some "red", mainContentOpacity := some 50,
    weatherPanelBg := none, weatherPanelOpacity := none,
    bottomPanelBg := none, bottomPanelOpacity := none,
    accentColor := none }

/-- A plausible state of a freshly initialized display (defaults from
`config.js` and `init.js`), used as concrete input in witnesses. -/
def initialState : DisplayState :=
  { css := { bgGradientStart := none, bgGradientEnd := none,
             panelBg := none, panelDark := none, panelDarker := none,
             accentGold := none },
    config := { schoolName := "Harford County Public Schools",
                slideshowInterval := 8000, livestreamUrl := none,
                autoDetect := true, livestreamCheckInterval := 60000,
                useImageSlides := false },
    schoolNameLabel := "Harford County Public Schools",
    pageTitle := "School Announcements - Harford County Public Schools",
    shw := { dom := [{ content := "welcome", active := true },
                     { content := "lunch menu", active := false }],
             cur := 0, timer := some 8000 },
    live := { monitorTimers := 0, monitorInterval := 60000,
              active := false, ssVisible := true } }

/-! ## C6: `applyGeneralSettings` and the page title -/

/-- The general config pushed in scenario-style tests. -/
def lincolnGeneral : GeneralConfig :=
  { schoolName := some "Lincoln HS", slideshowInterval := some 10000 }

/-- Scenario C's livestream config. -/
def scenarioCConfig : LivestreamConfig :=
  { enabled := true, url := some "https://x/y", autoDetect := true,
    checkInterval := some 30000 }

/-- Scenario C's disabling config. -/
def disableConfig : LivestreamConfig :=
  { enabled := false, url := none, autoDetect := false,
    checkInterval := none }

/-! ## C5: API failure and the localStorage fallback
(`js/theme-loader.js` 220–264) -/

/-- The relevant `localStorage` keys. Each field holds the
`JSON.parse` of the stored string when `getItem` returned a truthy
string, `none` when the key is absent. `useImageSlides` keeps the raw
string, since the source compares it to `'true'` directly and guards
with `!== null`. -/
structure LocalStore where
  customTheme : Option Theme
  customSlides : Option SlidesVal
  generalConfig : Option GeneralConfig
  livestreamConfig : Option LivestreamConfig
  useImageSlides : Option String
deriving DecidableEq, Repr

/-- The `USE_IMAGE_SLIDES` step of `loadFromLocalStorage`
(lines 259–261): `useImageSlides === 'true'` when the key exists. -/
def applyUseImageSlidesLS (o : Option String) (s : DisplayState) :
    DisplayState :=
  match o with
  | some v => { s with config.useImageSlides := v == "true" }
  | none => s

/-- `loadFromLocalStorage` (lines 240–264): each domain present in the
cache is applied through the same appliers, in source order — theme,
general, livestream, slides (document-ready path), slide mode. -/
def loadFromLocalStorage (ls : LocalStore) (s : DisplayState) :
    DisplayState :=
  applyUseImageSlidesLS ls.useImageSlides
    (applySlides ls.customSlides
      (applyLivestreamSettings ls.livestreamConfig
        (applyGeneralSettings ls.generalConfig
          (applyTheme ls.customTheme s))))

/-- Outcome of `fetch('/api/settings')` followed by `.json()`: an HTTP
response carrying a parsed bundle, or a network-level failure
(rejection anywhere in the chain). -/
inductive FetchResult where
  | response (status : Nat) (bundle : SettingsBundle)
  | networkFailure
deriving DecidableEq, Repr

/-- `response.ok`: status in 200–299. -/
def respOk (status : Nat) : Bool := 200 ≤ status && status ≤ 299

/-- Whether the one-shot fetch fails: a network error, or a response
whose non-2xx status makes the loader throw and fall into the catch
block. -/
def fetchFails (r : FetchResult) : Bool :=
  match r with
  | FetchResult.response st _ => !respOk st
  | FetchResult.networkFailure => true

/-- `loadSettingsFromAPI` (lines 220–235): on a 2xx response the bundle
is applied; any failure falls back to `loadFromLocalStorage`. -/
def loadSettingsFromAPI (r : FetchResult) (ls : LocalStore)
    (s : DisplayState) : DisplayState :=
  match r with
  | FetchResult.response st b =>
    if respOk st then applyAllSettings (some b) s
    else loadFromLocalStorage ls s
  | FetchResult.networkFailure => loadFromLocalStorage ls s

/-- The cached state of scenario B: only `generalConfig` is present. -/
def scenarioBStore : LocalStore :=
  { customTheme := none, customSlides := none,
    generalConfig := some { schoolName := some "Lincoln HS",
                            slideshowInterval := none },
    livestreamConfig := none, useImageSlides := none }

/-! ## C1: the SSE reconnect logic (`js/theme-loader.js` 269–337)

The subscriber's observable state is the module variables of the
IIFE: whether the current `EventSource` is open, whether
`reconnectTimeout` holds a handle (`!== null`), how many of the set
timers have not yet fired (`pending`), and how many reconnect timers
were ever scheduled (`scheduled`, the count of `setTimeout` calls in
`onerror`). The events are the platform callbacks: a transport error
(`onerror`), a successful open (`onopen`), and the elapsing of a
pending reconnect timer (which runs `connectSSE()` but — in the
source — never resets `reconnectTimeout` to `null`). -/

inductive SubEvent where
  | transportError
  | openOk
  | timerFire
deriving DecidableEq, Repr

/-- Subscriber state, as described above. -/
structure SubState where
  connOpen : Bool
  handle : Bool
  pending : Nat
  scheduled : Nat
deriving DecidableEq, Repr

/-- One platform callback.

* `transportError` — `onerror`: `eventSource.close()`, then
  `if (!reconnectTimeout) reconnectTimeout = setTimeout(..., 5000)`;
* `openOk` — `onopen`: `if (reconnectTimeout) { clearTimeout(...);
  reconnectTimeout = null }` (cancelling the timer if it was still
  pending);
* `timerFire` — a pending timer elapses: its callback calls
  `connectSSE()` (tearing down the old source and opening a new,
  not-yet-open one) and leaves `reconnectTimeout` set. -/
def subStep (s : SubState) : SubEvent → SubState
  | SubEvent.transportError =>
    let s1 := { s with connOpen := false }
    if s1.handle then s1
    else { s1 with handle := true, pending := s1.pending + 1,
                   scheduled := s1.scheduled + 1 }
  | SubEvent.openOk =>
    if s.handle then
      { s with connOpen := true, handle := false, pending := 0 }
    else { s with connOpen := true }
  | SubEvent.timerFire =>
    if s.pending = 0 then s
    else { s with pending := s.pending - 1, connOpen := false }

/-- State at module load: no connection yet, no timer ever set. -/
def initSub : SubState :=
  { connOpen := false, handle := false, pending := 0, scheduled := 0 }

/-- Run a sequence of platform callbacks. -/
def runSub (tr : List SubEvent) (s : SubState) : SubState :=
  tr.foldl subStep s

/-- One full error/recovery cycle: a transport error, the 5000 ms
timer elapsing (the reconnect attempt), and the new connection
opening. -/
def errCycle : List SubEvent :=
  [SubEvent.transportError, SubEvent.timerFire, SubEvent.openOk]

/-- `n` consecutive error/recovery cycles. -/
def errCycles : Nat → List SubEvent
  | 0 => []
  | n + 1 => errCycle ++ errCycles n

/-- The inductive invariant of the subscriber: at most one timer is
pending, and a pending timer implies the handle is set. -/
def SubInv (s : SubState) : Prop :=
  s.pending ≤ 1 ∧ (s.handle = false → s.pending = 0)

/-! ## C4: the `onmessage` dispatcher (`js/theme-loader.js` 286–323) -/

/-- The client state visible to the message handler: the display, the
subscriber's reconnect state (untouched by `onmessage`), the emergency
alert overlay (`EmergencyAlert.show`/`.hide`, modelled from the spec's
capability interface as the currently shown alert payload), the number
of `/api/emergency/status` catch-up fetches issued, and the number of
`showNotification` calls. -/
@[ext] structure ClientState where
  display : DisplayState
  sub : SubState
  emergencyAlert : Option String
  emergencyChecks : Nat
  notifications : Nat
deriving DecidableEq, Repr

/-- One inbound SSE message: either `JSON.parse(event.data)` throws
(`malformed`), or it yields an object whose `type`, `settings` and
`alert` fields are as given (absent fields are `none`). -/
inductive StreamMsg where
  | malformed
  | decoded (type : String) (settings : Option SettingsBundle)
      (alert : Option String)
deriving DecidableEq, Repr

/-- The `onmessage` handler: on a parse failure the catch block logs
and drops the message; otherwise dispatch on `data.type` in source
order — `initial` applies the bundle and issues the emergency
catch-up fetch, `settings_update` applies the bundle and shows a
notification, `emergency_alert`/`emergency_cancel` drive the overlay,
`server_shutdown` only logs, and any other type falls through every
branch with no effect. The reconnect state is never touched. -/
def handleMessage (m : StreamMsg) (st : ClientState) : ClientState :=
  match m with
  | StreamMsg.malformed => st
  | StreamMsg.decoded t sb al =>
    if t = "initial" then
      { st with display := applyAllSettings sb st.display,
                emergencyChecks := st.emergencyChecks + 1 }
    else if t = "settings_update" then
      { st with display := applyAllSettings sb st.display,
                notifications := st.notifications + 1 }
    else if t = "emergency_alert" then
      { st with emergencyAlert := al }
    else if t = "emergency_cancel" then
      { st with emergencyAlert := none }
    else if t = "server_shutdown" then st
    else st

/-- A concrete client state for the C4 witness. -/
def sampleClient : ClientState :=
  { display := initialState, sub := initSub, emergencyAlert := none,
    emergencyChecks := 0, notifications := 0 }

/-! ## Theorems -/

/-- **C3, counterexample.** The claim says `shouldShowSlide` "returns
true when all bounds are absent or satisfied" for *all* `Schedule`
values; but a schedule with `enabled: false` and every bound absent
yields `false`, because of the `!schedule.enabled` early return. -/
theorem shouldShowSlide_claim_counterexample :
    boundsSatisfied disabledBlankSchedule sampleNow = true ∧
    shouldShowSlide (some disabledBlankSchedule) sampleNow = false := by
  constructor <;> rfl

/-- **C3, amended.** For every *enabled* schedule, `shouldShowSlide`
agrees exactly with the bound semantics: it is `false` precisely when
the moment falls before `startDate`/`startTime`, after
`endDate`/`endTime`, or on an excluded day, and `true` when all bounds
are absent or satisfied — over the whole day/time input space. -/
theorem shouldShowSlide_amended (sch : Schedule) (now : Now)
    (h : sch.enabled = true) :
    shouldShowSlide (some sch) now = boundsSatisfied sch now := by
  unfold shouldShowSlide boundsSatisfied
  simp only [h, Bool.not_true]
  cases hds : dateBeforeStart sch now <;>
    cases hde : dateAfterEnd sch now <;>
      cases hdy : dayExcluded sch now <;>
        cases hts : timeBeforeStart sch now <;>
          cases hte : timeAfterEnd sch now <;> simp

/-- **C3, witness.** An enabled schedule with the edge times 00:00 and
23:59 and a day-of-week bound: at 09:30 on an allowed day, the amended
equation evaluates to `true` on both sides. -/
theorem shouldShowSlide_amended_witness :
    shouldShowSlide
      (some { enabled := true, startDate := none,
              endDate := none, daysOfWeek := some [1, 2, 3],
              startTime := some (0, 0), endTime := some (23, 59) })
      sampleNow = true :=
  (shouldShowSlide_amended _ sampleNow rfl).trans (by decide)

/-! ### C8: unscheduled slides are always visible -/

/-- **C8.** A slide whose index has no entry in `scheduledSlides` is
kept by `filterScheduledSlides`, whatever the current date, time or day
of week: the filter predicate returns `true` on the `find?`-miss path. -/
theorem filterScheduledSlides_keeps_unscheduled
    (allSlides : List String) (scheduled : List ScheduledEntry)
    (now : Now) (i : Nat) (hi : i < allSlides.length)
    (hno : scheduled.find? (fun e => e.slideIndex == i) = none) :
    allSlides.get ⟨i, hi⟩ ∈ filterScheduledSlides allSlides scheduled now := by
  unfold filterScheduledSlides
  have hlen : i < allSlides.enum.length := by
    simpa [List.enum_length] using hi
  have hget : allSlides.enum.get ⟨i, hlen⟩ = (i, allSlides.get ⟨i, hi⟩) := by
    simp [List.get_eq_getElem, List.getElem_enum]
  have hmem : (i, allSlides.get ⟨i, hi⟩) ∈ allSlides.enum := by
    rw [← hget]; exact List.get_mem _ _ _
  have hpred :
      (match scheduled.find? (fun e => e.slideIndex == i) with
        | none => true
        | some e => shouldShowSlide e.schedule now) = true := by
    rw [hno]
  refine List.mem_map.mpr ⟨(i, allSlides.get ⟨i, hi⟩), ?_, rfl⟩
  exact List.mem_filter.mpr ⟨hmem, hpred⟩

/-- **C8, witness.** In a three-slide list where only index 1 has a
(never-matching) schedule entry, slide 2 has no entry and is kept. -/
theorem filterScheduledSlides_keeps_unscheduled_witness :
    ("c" : String) ∈ filterScheduledSlides ["a", "b", "c"]
      [{ slideIndex := 1, schedule := none }] sampleNow :=
  filterScheduledSlides_keeps_unscheduled ["a", "b", "c"]
    [{ slideIndex := 1, schedule := none }] sampleNow 2
    (by decide) (by decide)

/-- Writing the same theme twice leaves the CSS variables where one
write put them: every field either receives a value computed from the
theme alone or is untouched. -/
theorem themeWrite_idem (th : Theme) (c : CssVars) :
    themeWrite th (themeWrite th c) = themeWrite th c := by
  ext1 <;>
    simp only [themeWrite] <;>
    [cases strTruthy th.bgGradientStart <;> cases strTruthy th.bgGradientEnd;
     cases strTruthy th.bgGradientStart <;> cases strTruthy th.bgGradientEnd;
     cases th.mainContentBg <;> cases th.mainContentOpacity;
     cases th.weatherPanelBg <;> cases th.weatherPanelOpacity;
     cases th.bottomPanelBg <;> cases th.bottomPanelOpacity;
     cases strTruthy th.accentColor] <;>
    rfl

/-- `themeWriteO` is idempotent. -/
theorem themeWriteO_idem (t : Option Theme) (c : CssVars) :
    themeWriteO t (themeWriteO t c) = themeWriteO t c := by
  cases t with
  | none => rfl
  | some th => exact themeWrite_idem th c

theorem applyTheme_css (t : Option Theme) (s : DisplayState) :
    (applyTheme t s).css = themeWriteO t s.css := by
  cases t <;> rfl

theorem applyTheme_config (t : Option Theme) (s : DisplayState) :
    (applyTheme t s).config = s.config := by cases t <;> rfl

theorem applyTheme_label (t : Option Theme) (s : DisplayState) :
    (applyTheme t s).schoolNameLabel = s.schoolNameLabel := by
  cases t <;> rfl

theorem applyTheme_title (t : Option Theme) (s : DisplayState) :
    (applyTheme t s).pageTitle = s.pageTitle := by cases t <;> rfl

theorem applyTheme_shw (t : Option Theme) (s : DisplayState) :
    (applyTheme t s).shw = s.shw := by cases t <;> rfl

theorem applyTheme_live (t : Option Theme) (s : DisplayState) :
    (applyTheme t s).live = s.live := by cases t <;> rfl

theorem applyGeneral_css (c : Option GeneralConfig) (s : DisplayState) :
    (applyGeneralSettings c s).css = s.css := by
  cases c with
  | none => rfl
  | some g =>
    cases h1 : strTruthy g.schoolName <;>
      cases h2 : natTruthy g.slideshowInterval <;>
        simp [applyGeneralSettings, slideshowRestart, h1, h2]

theorem applyGeneral_config (c : Option GeneralConfig) (s : DisplayState) :
    (applyGeneralSettings c s).config = agConfW c s.config := by
  cases c with
  | none => rfl
  | some g =>
    cases h1 : strTruthy g.schoolName <;>
      cases h2 : natTruthy g.slideshowInterval <;>
        simp [applyGeneralSettings, agConfW, nameW, intW, gName, gInt,
          slideshowRestart, h1, h2]

theorem applyGeneral_label (c : Option GeneralConfig) (s : DisplayState) :
    (applyGeneralSettings c s).schoolNameLabel =
      nameW c s.schoolNameLabel := by
  cases c with
  | none => rfl
  | some g =>
    cases h1 : strTruthy g.schoolName <;>
      cases h2 : natTruthy g.slideshowInterval <;>
        simp [applyGeneralSettings, nameW, gName, slideshowRestart, h1, h2]

theorem applyGeneral_title (c : Option GeneralConfig) (s : DisplayState) :
    (applyGeneralSettings c s).pageTitle = s.pageTitle := by
  cases c with
  | none => rfl
  | some g =>
    cases h1 : strTruthy g.schoolName <;>
      cases h2 : natTruthy g.slideshowInterval <;>
        simp [applyGeneralSettings, slideshowRestart, h1, h2]

theorem applyGeneral_shw (c : Option GeneralConfig) (s : DisplayState) :
    (applyGeneralSettings c s).shw = agShw c s.shw := by
  cases c with
  | none => rfl
  | some g =>
    cases h1 : strTruthy g.schoolName <;>
      cases h2 : natTruthy g.slideshowInterval <;>
        simp [applyGeneralSettings, agShw, gInt, slideshowRestart, h1, h2]

theorem applyGeneral_live (c : Option GeneralConfig) (s : DisplayState) :
    (applyGeneralSettings c s).live = s.live := by
  cases c with
  | none => rfl
  | some g =>
    cases h1 : strTruthy g.schoolName <;>
      cases h2 : natTruthy g.slideshowInterval <;>
        simp [applyGeneralSettings, slideshowRestart, h1, h2]

theorem applyLivestream_css (c : Option LivestreamConfig) (s : DisplayState) :
    (applyLivestreamSettings c s).css = s.css := by
  cases c with
  | none => rfl
  | some cfg =>
    cases hE : cfg.enabled <;> cases hA : cfg.autoDetect <;>
      cases hAct : s.live.active <;>
        simp [applyLivestreamSettings, livestreamStopMonitoring,
          livestreamStartMonitoring, livestreamShowNull, hE, hA, hAct]

theorem applyLivestream_config (c : Option LivestreamConfig)
    (s : DisplayState) :
    (applyLivestreamSettings c s).config = lsConfW c s.config := by
  cases c with
  | none => rfl
  | some cfg =>
    cases hE : cfg.enabled <;> cases hA : cfg.autoDetect <;>
      cases hAct : s.live.active <;>
        simp [applyLivestreamSettings, lsConfW, livestreamStopMonitoring,
          livestreamStartMonitoring, livestreamShowNull, hE, hA, hAct]

theorem applyLivestream_label (c : Option LivestreamConfig)
    (s : DisplayState) :
    (applyLivestreamSettings c s).schoolNameLabel = s.schoolNameLabel := by
  cases c with
  | none => rfl
  | some cfg =>
    cases hE : cfg.enabled <;> cases hA : cfg.autoDetect <;>
      cases hAct : s.live.active <;>
        simp [applyLivestreamSettings, livestreamStopMonitoring,
          livestreamStartMonitoring, livestreamShowNull, hE, hA, hAct]

theorem applyLivestream_title (c : Option LivestreamConfig)
    (s : DisplayState) :
    (applyLivestreamSettings c s).pageTitle = s.pageTitle := by
  cases c with
  | none => rfl
  | some cfg =>
    cases hE : cfg.enabled <;> cases hA : cfg.autoDetect <;>
      cases hAct : s.live.active <;>
        simp [applyLivestreamSettings, livestreamStopMonitoring,
          livestreamStartMonitoring, livestreamShowNull, hE, hA, hAct]

theorem applyLivestream_shw (c : Option LivestreamConfig)
    (s : DisplayState) :
    (applyLivestreamSettings c s).shw = s.shw := by
  cases c with
  | none => rfl
  | some cfg =>
    cases hE : cfg.enabled <;> cases hA : cfg.autoDetect <;>
      cases hAct : s.live.active <;>
        simp [applyLivestreamSettings, livestreamStopMonitoring,
          livestreamStartMonitoring, livestreamShowNull, hE, hA, hAct]

theorem applyLivestream_live (c : Option LivestreamConfig)
    (s : DisplayState) :
    (applyLivestreamSettings c s).live = lsLiveW c s.live := by
  cases c with
  | none => rfl
  | some cfg =>
    cases hE : cfg.enabled <;> cases hA : cfg.autoDetect <;>
      cases hAct : s.live.active <;>
        simp [applyLivestreamSettings, lsLiveW, livestreamStopMonitoring,
          livestreamStartMonitoring, livestreamShowNull, hE, hA, hAct]

theorem applySlides_css (v : Option SlidesVal) (s : DisplayState) :
    (applySlides v s).css = s.css := by
  cases v with
  | none => rfl
  | some w =>
    cases w with
    | notArray => rfl
    | arr l =>
      cases hL : l.isEmpty <;>
        simp [applySlides, slideshowRestart, hL]

theorem applySlides_config (v : Option SlidesVal) (s : DisplayState) :
    (applySlides v s).config = s.config := by
  cases v with
  | none => rfl
  | some w =>
    cases w with
    | notArray => rfl
    | arr l =>
      cases hL : l.isEmpty <;>
        simp [applySlides, slideshowRestart, hL]

theorem applySlides_label (v : Option SlidesVal) (s : DisplayState) :
    (applySlides v s).schoolNameLabel = s.schoolNameLabel := by
  cases v with
  | none => rfl
  | some w =>
    cases w with
    | notArray => rfl
    | arr l =>
      cases hL : l.isEmpty <;>
        simp [applySlides, slideshowRestart, hL]

theorem applySlides_title (v : Option SlidesVal) (s : DisplayState) :
    (applySlides v s).pageTitle = s.pageTitle := by
  cases v with
  | none => rfl
  | some w =>
    cases w with
    | notArray => rfl
    | arr l =>
      cases hL : l.isEmpty <;>
        simp [applySlides, slideshowRestart, hL]

theorem applySlides_live (v : Option SlidesVal) (s : DisplayState) :
    (applySlides v s).live = s.live := by
  cases v with
  | none => rfl
  | some w =>
    cases w with
    | notArray => rfl
    | arr l =>
      cases hL : l.isEmpty <;>
        simp [applySlides, slideshowRestart, hL]

theorem applySlides_shw (v : Option SlidesVal) (s : DisplayState) :
    (applySlides v s).shw = aslShw v s.config.slideshowInterval s.shw := by
  cases v with
  | none => rfl
  | some w =>
    cases w with
    | notArray => rfl
    | arr l =>
      cases hL : l.isEmpty <;>
        simp [applySlides, aslShw, slideshowRestart, hL]

theorem applyUis_css (u : Option UisVal) (s : DisplayState) :
    (applyUseImageSlides u s).css = s.css := by cases u <;> rfl

theorem applyUis_config (u : Option UisVal) (s : DisplayState) :
    (applyUseImageSlides u s).config = uisConfW u s.config := by
  cases u <;> rfl

theorem applyUis_label (u : Option UisVal) (s : DisplayState) :
    (applyUseImageSlides u s).schoolNameLabel = s.schoolNameLabel := by
  cases u <;> rfl

theorem applyUis_title (u : Option UisVal) (s : DisplayState) :
    (applyUseImageSlides u s).pageTitle = s.pageTitle := by
  cases u <;> rfl

theorem applyUis_shw (u : Option UisVal) (s : DisplayState) :
    (applyUseImageSlides u s).shw = s.shw := by cases u <;> rfl

theorem applyUis_live (u : Option UisVal) (s : DisplayState) :
    (applyUseImageSlides u s).live = s.live := by cases u <;> rfl

/-! ## Evaluation of `applyAllSettings`, field by field -/

theorem applyAll_css (b : SettingsBundle) (s : DisplayState) :
    (applyAllSettings (some b) s).css = themeWriteO b.customTheme s.css := by
  simp [applyAllSettings, applyUis_css, applySlides_css,
    applyLivestream_css, applyGeneral_css, applyTheme_css]

theorem applyAll_label (b : SettingsBundle) (s : DisplayState) :
    (applyAllSettings (some b) s).schoolNameLabel =
      nameW b.generalConfig s.schoolNameLabel := by
  simp [applyAllSettings, applyUis_label, applySlides_label,
    applyLivestream_label, applyGeneral_label, applyTheme_label]

theorem applyAll_title (b : SettingsBundle) (s : DisplayState) :
    (applyAllSettings (some b) s).pageTitle = s.pageTitle := by
  simp [applyAllSettings, applyUis_title, applySlides_title,
    applyLivestream_title, applyGeneral_title, applyTheme_title]

theorem applyAll_config (b : SettingsBundle) (s : DisplayState) :
    (applyAllSettings (some b) s).config =
      uisConfW b.useImageSlides
        (lsConfW b.livestreamConfig (agConfW b.generalConfig s.config)) := by
  simp [applyAllSettings, applyUis_config, applySlides_config,
    applyLivestream_config, applyGeneral_config, applyTheme_config]

theorem lsConfW_interval (c : Option LivestreamConfig) (k : Config) :
    (lsConfW c k).slideshowInterval = k.slideshowInterval := by
  cases c with
  | none => rfl
  | some cfg => cases hE : cfg.enabled <;> simp [lsConfW, hE]

theorem applyAll_shw (b : SettingsBundle) (s : DisplayState) :
    (applyAllSettings (some b) s).shw =
      aslShw b.customSlides
        (intW b.generalConfig s.config.slideshowInterval)
        (agShw b.generalConfig s.shw) := by
  simp [applyAllSettings, applyUis_shw, applySlides_shw,
    applyLivestream_shw, applyLivestream_config, applyGeneral_shw,
    applyGeneral_config, applyTheme_shw, applyTheme_config,
    lsConfW_interval, agConfW]

theorem applyAll_live (b : SettingsBundle) (s : DisplayState) :
    (applyAllSettings (some b) s).live = lsLiveW b.livestreamConfig s.live := by
  simp [applyAllSettings, applyUis_live, applySlides_live,
    applyLivestream_live, applyGeneral_live, applyTheme_live]

/-! ## Idempotence of the per-field writers -/

theorem nameW_idem (c : Option GeneralConfig) (x : String) :
    nameW c (nameW c x) = nameW c x := by
  cases h : gName c <;> simp [nameW, h]

theorem intW_idem (c : Option GeneralConfig) (x : Nat) :
    intW c (intW c x) = intW c x := by
  cases h : gInt c <;> simp [intW, h]

theorem uisW_idem (u : Option UisVal) (x : Bool) :
    uisW u (uisW u x) = uisW u x := by
  cases u <;> simp [uisW]

theorem lsConfW_schoolName (c : Option LivestreamConfig) (k : Config) :
    (lsConfW c k).schoolName = k.schoolName := by
  cases c with
  | none => rfl
  | some cfg => cases hE : cfg.enabled <;> simp [lsConfW, hE]

theorem lsConfW_uis (c : Option LivestreamConfig) (k : Config) :
    (lsConfW c k).useImageSlides = k.useImageSlides := by
  cases c with
  | none => rfl
  | some cfg => cases hE : cfg.enabled <;> simp [lsConfW, hE]

/-- The three config writers touch disjoint `CONFIG` fields with values
read only from their own domain and the untouched old state, so a
second pass changes nothing. -/
theorem confW_idem (g : Option GeneralConfig) (l : Option LivestreamConfig)
    (u : Option UisVal) (k : Config) :
    uisConfW u (lsConfW l (agConfW g (uisConfW u (lsConfW l (agConfW g k))))) =
      uisConfW u (lsConfW l (agConfW g k)) := by
  cases l with
  | none =>
    ext1 <;>
      simp [uisConfW, lsConfW, agConfW, nameW_idem, intW_idem, uisW_idem]
  | some cfg =>
    cases hE : cfg.enabled <;>
      ext1 <;>
        simp [uisConfW, lsConfW, agConfW, hE, nameW_idem, intW_idem, uisW_idem]

theorem lsLiveW_idem (c : Option LivestreamConfig) (x : LiveState) :
    lsLiveW c (lsLiveW c x) = lsLiveW c x := by
  cases c with
  | none => rfl
  | some cfg =>
    cases hE : cfg.enabled <;> cases hA : cfg.autoDetect <;>
      cases hAct : x.active <;> simp [lsLiveW, hE, hA, hAct]

theorem setActiveFrom_length (i : Nat) (l : List SlideElem) :
    (setActiveFrom i l).length = l.length := by
  induction l generalizing i with
  | nil => rfl
  | cons e t ih => simp [setActiveFrom, ih]

theorem setActiveFrom_idem (i : Nat) (l : List SlideElem) :
    setActiveFrom i (setActiveFrom i l) = setActiveFrom i l := by
  induction l generalizing i with
  | nil => rfl
  | cons e t ih => simp [setActiveFrom, ih]

theorem buildSlides_length (i : Nat) (l : List String) :
    (buildSlides i l).length = l.length := by
  induction l generalizing i with
  | nil => rfl
  | cons c t ih => simp [buildSlides, ih]

theorem setActiveFrom_buildSlides (i : Nat) (l : List String) :
    setActiveFrom i (buildSlides i l) = buildSlides i l := by
  induction l generalizing i with
  | nil => rfl
  | cons c t ih => simp [setActiveFrom, buildSlides, ih]

theorem restartShw_idem (v : Nat) (w : ShwState) :
    restartShw v (restartShw v w) = restartShw v w := by
  by_cases h : w.dom.length > 0 <;>
    simp [restartShw, h, setActiveFrom_length, setActiveFrom_idem]

theorem agShw_idem (g : Option GeneralConfig) (w : ShwState) :
    agShw g (agShw g w) = agShw g w := by
  cases h : gInt g <;> simp [agShw, h, restartShw_idem]

/-- On a non-empty slide list, `applySlides`' slideshow result does not
depend on the previous slideshow state at all: the container is rebuilt
from scratch and the restart resets index and timer. -/
theorem aslShw_arr_const (l : List String) (hl : ¬l.isEmpty) (I : Nat)
    (w : ShwState) :
    aslShw (some (SlidesVal.arr l)) I w =
      { dom := buildSlides 0 l, cur := 0,
        timer := some (if I = 0 then 8000 else I) } := by
  have hlen : 0 < l.length := by
    cases l with
    | nil => simp at hl
    | cons a t => simp
  simp [aslShw, hl, restartShw, buildSlides_length, hlen,
    setActiveFrom_buildSlides]

/-- One full pass of the slideshow-touching steps of `applyAllSettings`
(the general-settings restart followed by the slide replacement) is
idempotent. -/
theorem shwCombo_idem (g : Option GeneralConfig) (v : Option SlidesVal)
    (I : Nat) (w : ShwState) :
    aslShw v I (agShw g (aslShw v I (agShw g w))) =
      aslShw v I (agShw g w) := by
  cases v with
  | none => simp [aslShw, agShw_idem]
  | some sv =>
    cases sv with
    | notArray => simp [aslShw, agShw_idem]
    | arr l =>
      by_cases hl : l.isEmpty
      · simp [aslShw, hl, agShw_idem]
      · rw [aslShw_arr_const l hl, aslShw_arr_const l hl]

theorem applyAll_interval (b : SettingsBundle) (s : DisplayState) :
    (applyAllSettings (some b) s).config.slideshowInterval =
      intW b.generalConfig s.config.slideshowInterval := by
  rw [applyAll_config]
  simp [uisConfW, lsConfW_interval, agConfW]

/-- **C2.** `applyAllSettings` is idempotent: applying the same bundle
twice leaves exactly the state one application produces — the CSS
variables, every `window.CONFIG` field, the rendered slide list (a full
replace, never an append), the slideshow timer and index, and the
livestream monitor all coincide. -/
theorem applyAllSettings_idem (b : SettingsBundle) (s : DisplayState) :
    applyAllSettings (some b) (applyAllSettings (some b) s) =
      applyAllSettings (some b) s := by
  ext1
  · rw [applyAll_css, applyAll_css]
    exact themeWriteO_idem _ _
  · rw [applyAll_config, applyAll_config]
    exact confW_idem _ _ _ _
  · rw [applyAll_label, applyAll_label]
    exact nameW_idem _ _
  · rw [applyAll_title, applyAll_title]
  · rw [applyAll_shw, applyAll_shw, applyAll_interval, intW_idem]
    exact shwCombo_idem _ _ _ _
  · rw [applyAll_live, applyAll_live]
    exact lsLiveW_idem _ _

/-! ## C9: invalid hex colors -/

/-- The regex of `hexToRgb` rejects anything that is not six hex digits
after an optional `#`, and the fallback is `{r: 0, g: 0, b: 0}`. -/
theorem hexToRgb_invalid (hex : String)
    (h : isValidHexColor hex = false) :
    hexToRgb hex = { r := 0, g := 0, b := 0 } := by
  unfold hexToRgb
  unfold isValidHexColor at h
  rcases hl : stripHash hex.toList with
      _ | ⟨c1, _ | ⟨c2, _ | ⟨c3, _ | ⟨c4, _ | ⟨c5, _ | ⟨c6, _ | ⟨c7, t⟩⟩⟩⟩⟩⟩⟩ <;>
    (rw [hl] at h; all_goals simp_all)

/-- **C9.** On any string the hex regex rejects, `hexToRgb` returns
black, so `applyTheme` with an invalid `mainContentBg` and a defined
`mainContentOpacity` sets `--color-panel-bg` to
`rgba(0, 0, 0, opacity/100)`, silently overwriting whatever was there,
rather than keeping the previous value or erroring. -/
theorem applyTheme_invalid_hex_black (hex : String) (op : Nat)
    (th : Theme) (s : DisplayState)
    (hinv : isValidHexColor hex = false)
    (hbg : th.mainContentBg = some hex)
    (hop : th.mainContentOpacity = some op) :
    hexToRgb hex = { r := 0, g := 0, b := 0 } ∧
    (applyTheme (some th) s).css.panelBg = some (CssVal.rgba 0 0 0 op) := by
  have h0 := hexToRgb_invalid hex hinv
  refine ⟨h0, ?_⟩
  simp [applyTheme, themeWrite, panelRgba, hbg, hop, h0]

/-- **C9, witness.** `"red"` is not a hex color: the panel variable
becomes `rgba(0, 0, 0, 50/100)`. -/
theorem applyTheme_invalid_hex_black_witness :
    hexToRgb "red" = { r := 0, g := 0, b := 0 } ∧
    (applyTheme (some invalidTheme) initialState).css.panelBg =
      some (CssVal.rgba 0 0 0 50) :=
  applyTheme_invalid_hex_black "red" 50 invalidTheme initialState
    (by decide) rfl rfl

/-- **C6, counterexample.** `applyGeneralSettings` updates the
`#schoolName` label and `CONFIG.SCHOOL_NAME` but never touches
`document.title`: after applying a config with school name
`"Lincoln HS"` to a display whose title was set at init from the old
name, the title still carries the old name — the claim's "updates the
school name in ... the page title" is false on the code
(`document.title` is written only by `initializeSchoolName` at load). -/
theorem applyGeneralSettings_title_counterexample :
    (applyGeneralSettings (some lincolnGeneral) initialState).schoolNameLabel
        = "Lincoln HS" ∧
    (applyGeneralSettings (some lincolnGeneral) initialState).config.schoolName
        = "Lincoln HS" ∧
    (applyGeneralSettings (some lincolnGeneral) initialState).pageTitle
        ≠ "School Announcements - Lincoln HS" ∧
    (applyGeneralSettings (some lincolnGeneral) initialState).pageTitle
        = "School Announcements - Harford County Public Schools" := by
  refine ⟨?_, ?_, ?_, ?_⟩ <;> decide

/-- **C6, amended.** Given a config with a (truthy) school name and a
(truthy) interval, `applyGeneralSettings` updates the school name in
`CONFIG` and the DOM label — but not the page title, which keeps its
previous value — updates the configured interval, and restarts the
slideshow timer at the new interval with the slide index reset to 0
(whenever the container has slides). -/
theorem applyGeneralSettings_amended (g : GeneralConfig) (s : DisplayState)
    (n : String) (v : Nat) (hn : g.schoolName = some n) (hn0 : n ≠ "")
    (hv : g.slideshowInterval = some v) (hv0 : v ≠ 0) :
    (applyGeneralSettings (some g) s).config.schoolName = n ∧
    (applyGeneralSettings (some g) s).schoolNameLabel = n ∧
    (applyGeneralSettings (some g) s).pageTitle = s.pageTitle ∧
    (applyGeneralSettings (some g) s).config.slideshowInterval = v ∧
    (0 < s.shw.dom.length →
      (applyGeneralSettings (some g) s).shw.timer = some v ∧
      (applyGeneralSettings (some g) s).shw.cur = 0) := by
  have h1 : strTruthy g.schoolName = some n := by simp [strTruthy, hn, hn0]
  have h2 : natTruthy g.slideshowInterval = some v := by
    simp [natTruthy, hv, hv0]
  refine ⟨?_, ?_, ?_, ?_, fun hdom => ?_⟩
  · simp [applyGeneral_config, agConfW, nameW, gName, h1]
  · simp [applyGeneral_label, nameW, gName, h1]
  · simp [applyGeneral_title]
  · simp [applyGeneral_config, agConfW, intW, gInt, h2]
  · constructor <;>
      simp [applyGeneral_shw, agShw, gInt, h2, restartShw, hdom, hv0]

/-- **C6, amended, witness.** Applying `lincolnGeneral` to the initial
display: label `"Lincoln HS"`, unchanged title, interval 10000 and a
restarted timer on slide 0. -/
theorem applyGeneralSettings_amended_witness :
    (applyGeneralSettings (some lincolnGeneral) initialState).config.schoolName
        = "Lincoln HS" ∧
    (applyGeneralSettings (some lincolnGeneral) initialState).schoolNameLabel
        = "Lincoln HS" ∧
    (applyGeneralSettings (some lincolnGeneral) initialState).pageTitle
        = initialState.pageTitle ∧
    (applyGeneralSettings (some lincolnGeneral) initialState).config.slideshowInterval
        = 10000 ∧
    (0 < initialState.shw.dom.length →
      (applyGeneralSettings (some lincolnGeneral) initialState).shw.timer
          = some 10000 ∧
      (applyGeneralSettings (some lincolnGeneral) initialState).shw.cur = 0) :=
  applyGeneralSettings_amended lincolnGeneral initialState "Lincoln HS" 10000
    rfl (by decide) rfl (by decide)

/-! ## C7: livestream enable/disable -/

/-- **C7.** Disabling the livestream stops the monitor (zero live
monitor timers, hence no further polls), drops `isActive` and — when a
livestream was showing — makes the slideshow the visible display;
enabling with auto-detect leaves exactly one monitor timer (the
existing one is stopped first, so timers never accumulate) polling at
the configured `checkInterval` (`|| 60000`). -/
theorem applyLivestreamSettings_monitor (cfg : LivestreamConfig)
    (s : DisplayState) :
    (cfg.enabled = false →
      (applyLivestreamSettings (some cfg) s).live.monitorTimers = 0 ∧
      (applyLivestreamSettings (some cfg) s).live.active = false ∧
      (s.live.active = true →
        (applyLivestreamSettings (some cfg) s).live.ssVisible = true)) ∧
    (cfg.enabled = true → cfg.autoDetect = true →
      (applyLivestreamSettings (some cfg) s).live.monitorTimers = 1 ∧
      (applyLivestreamSettings (some cfg) s).live.monitorInterval =
        (natTruthy cfg.checkInterval).getD 60000) ∧
    (applyLivestreamSettings (some cfg) s).live.monitorTimers ≤ 1 := by
  refine ⟨fun hE => ?_, fun hE hA => ?_, ?_⟩
  · exact ⟨by simp [applyLivestream_live, lsLiveW, hE],
           by simp [applyLivestream_live, lsLiveW, hE],
           fun hAct => by simp [applyLivestream_live, lsLiveW, hE, hAct]⟩
  · constructor <;> simp [applyLivestream_live, lsLiveW, hE, hA]
  · rcases hE : cfg.enabled <;> rcases hA : cfg.autoDetect <;>
      simp [applyLivestream_live, lsLiveW, hE, hA]

/-- **C7, witness.** Applying `{enabled:true, autoDetect:true,
checkInterval:30000}` leaves one monitor timer at 30000 ms; applying
`{enabled:false}` to the result leaves zero monitor timers (no further
polls) and an inactive livestream. -/
theorem applyLivestreamSettings_monitor_witness :
    ((applyLivestreamSettings (some scenarioCConfig) initialState).live.monitorTimers = 1 ∧
     (applyLivestreamSettings (some scenarioCConfig) initialState).live.monitorInterval =
       (natTruthy scenarioCConfig.checkInterval).getD 60000) ∧
    ((applyLivestreamSettings (some disableConfig)
        (applyLivestreamSettings (some scenarioCConfig) initialState)).live.monitorTimers = 0 ∧
     (applyLivestreamSettings (some disableConfig)
        (applyLivestreamSettings (some scenarioCConfig) initialState)).live.active = false) :=
  ⟨(applyLivestreamSettings_monitor scenarioCConfig initialState).2.1
      (by decide) (by decide),
   ⟨((applyLivestreamSettings_monitor disableConfig
        (applyLivestreamSettings (some scenarioCConfig) initialState)).1
        (by decide)).1,
    ((applyLivestreamSettings_monitor disableConfig
        (applyLivestreamSettings (some scenarioCConfig) initialState)).1
        (by decide)).2.1⟩⟩

/-! ## C10: `applySlides` on missing, non-array or empty input -/

/-- Contents of the rendered slide list are untouched by
`showSlide(0)`'s class rewriting. -/
theorem setActiveFrom_content (i : Nat) (l : List SlideElem) :
    (setActiveFrom i l).map SlideElem.content = l.map SlideElem.content := by
  induction l generalizing i with
  | nil => rfl
  | cons e t ih => simp [setActiveFrom, ih]

/-- **C10.** The guard of `applySlides` returns before touching
anything whenever the argument is missing, not an array, or an empty
array — the container children stay, the timer is not restarted, the
state is bit-for-bit unchanged. Consequently a bundle whose
`customSlides` is `[]` cannot clear previously rendered slides: after
`applyAllSettings` the rendered contents are exactly the old ones
(only the `active` class may move, when the general-settings branch
restarts the slideshow). -/
theorem applySlides_noop (v : Option SlidesVal) (s : DisplayState)
    (b : SettingsBundle)
    (hv : v = none ∨ v = some SlidesVal.notArray ∨
      v = some (SlidesVal.arr []))
    (hb : b.customSlides = some (SlidesVal.arr [])) :
    applySlides v s = s ∧
    (applyAllSettings (some b) s).shw.dom.map SlideElem.content =
      s.shw.dom.map SlideElem.content := by
  constructor
  · rcases hv with h | h | h <;> subst h <;> rfl
  · rw [applyAll_shw, hb]
    simp only [aslShw, List.isEmpty_nil, if_true]
    rcases h : gInt b.generalConfig with _ | w
    · simp [agShw, h]
    · simp only [agShw, h, restartShw]
      by_cases hd : 0 < s.shw.dom.length <;>
        simp [hd, setActiveFrom_content]

/-- **C10, witness.** Applying an empty slide list directly is a no-op
on the initial state, and through `applyAllSettings` (with an
otherwise empty bundle) the rendered contents survive. -/
theorem applySlides_noop_witness :
    applySlides (some (SlidesVal.arr [])) initialState = initialState ∧
    (applyAllSettings
        (some { emptyBundle with customSlides := some (SlidesVal.arr []) })
        initialState).shw.dom.map SlideElem.content =
      initialState.shw.dom.map SlideElem.content :=
  applySlides_noop (some (SlidesVal.arr [])) initialState
    { emptyBundle with customSlides := some (SlidesVal.arr []) }
    (Or.inr (Or.inr rfl)) rfl

theorem loadLS_css (ls : LocalStore) (s : DisplayState) :
    (loadFromLocalStorage ls s).css = themeWriteO ls.customTheme s.css := by
  unfold loadFromLocalStorage
  cases h : ls.useImageSlides <;>
    simp [applyUseImageSlidesLS, applySlides_css, applyLivestream_css,
      applyGeneral_css, applyTheme_css]

theorem loadLS_label (ls : LocalStore) (s : DisplayState) :
    (loadFromLocalStorage ls s).schoolNameLabel =
      nameW ls.generalConfig s.schoolNameLabel := by
  unfold loadFromLocalStorage
  cases h : ls.useImageSlides <;>
    simp [applyUseImageSlidesLS, applySlides_label, applyLivestream_label,
      applyGeneral_label, applyTheme_label]

theorem loadLS_live (ls : LocalStore) (s : DisplayState) :
    (loadFromLocalStorage ls s).live =
      lsLiveW ls.livestreamConfig s.live := by
  unfold loadFromLocalStorage
  cases h : ls.useImageSlides <;>
    simp [applyUseImageSlidesLS, applySlides_live, applyLivestream_live,
      applyGeneral_live, applyTheme_live]

theorem loadLS_shw (ls : LocalStore) (s : DisplayState) :
    (loadFromLocalStorage ls s).shw =
      aslShw ls.customSlides
        (intW ls.generalConfig s.config.slideshowInterval)
        (agShw ls.generalConfig s.shw) := by
  unfold loadFromLocalStorage
  cases h : ls.useImageSlides <;>
    simp [applyUseImageSlidesLS, applySlides_shw, applyLivestream_shw,
      applyLivestream_config, applyGeneral_shw, applyGeneral_config,
      applyTheme_shw, applyTheme_config, lsConfW_interval, agConfW]

theorem loadLS_uisFlag (ls : LocalStore) (s : DisplayState) :
    (loadFromLocalStorage ls s).config.useImageSlides =
      (match ls.useImageSlides with
        | some v => v == "true"
        | none => s.config.useImageSlides) := by
  unfold loadFromLocalStorage
  cases h : ls.useImageSlides <;>
    simp [applyUseImageSlidesLS, applySlides_config, applyLivestream_config,
      applyGeneral_config, applyTheme_config, lsConfW_uis, agConfW]

/-- **C5.** When the one-shot `GET /api/settings` fails — network error
or any non-2xx status — the loader runs the localStorage fallback, and
every domain present in the cache takes effect: the cached theme lands
in the CSS variables, the cached general config in the school-name
label, the cached livestream config in the monitor, the cached slides
in the container, the cached slide mode in `CONFIG`; in particular a
cached `generalConfig` with school name `"Lincoln HS"` leaves
`"Lincoln HS"` as the displayed school name. -/
theorem loadSettingsFromAPI_fallback (r : FetchResult) (ls : LocalStore)
    (s : DisplayState) (h : fetchFails r = true) :
    loadSettingsFromAPI r ls s = loadFromLocalStorage ls s ∧
    (loadSettingsFromAPI r ls s).css = themeWriteO ls.customTheme s.css ∧
    (loadSettingsFromAPI r ls s).schoolNameLabel =
      nameW ls.generalConfig s.schoolNameLabel ∧
    (loadSettingsFromAPI r ls s).live =
      lsLiveW ls.livestreamConfig s.live ∧
    (loadSettingsFromAPI r ls s).shw =
      aslShw ls.customSlides
        (intW ls.generalConfig s.config.slideshowInterval)
        (agShw ls.generalConfig s.shw) ∧
    (loadSettingsFromAPI r ls s).config.useImageSlides =
      (match ls.useImageSlides with
        | some v => v == "true"
        | none => s.config.useImageSlides) ∧
    (∀ g, ls.generalConfig = some g → g.schoolName = some "Lincoln HS" →
      (loadSettingsFromAPI r ls s).schoolNameLabel = "Lincoln HS") := by
  have hfb : loadSettingsFromAPI r ls s = loadFromLocalStorage ls s := by
    cases r with
    | response st b =>
      unfold fetchFails at h
      simp only [Bool.not_eq_true'] at h
      simp [loadSettingsFromAPI, h]
    | networkFailure => rfl
  refine ⟨hfb, ?_, ?_, ?_, ?_, ?_, ?_⟩
  · rw [hfb, loadLS_css]
  · rw [hfb, loadLS_label]
  · rw [hfb, loadLS_live]
  · rw [hfb, loadLS_shw]
  · rw [hfb, loadLS_uisFlag]
  · intro g hg hname
    rw [hfb, loadLS_label]
    simp [nameW, gName, hg, hname, strTruthy]

/-- **C5, witness.** A plain network failure with scenario B's cache:
the fallback runs and the displayed school name is `"Lincoln HS"`. -/
theorem loadSettingsFromAPI_fallback_witness :
    loadSettingsFromAPI FetchResult.networkFailure scenarioBStore
        initialState =
      loadFromLocalStorage scenarioBStore initialState ∧
    (loadSettingsFromAPI FetchResult.networkFailure scenarioBStore
        initialState).schoolNameLabel = "Lincoln HS" :=
  ⟨(loadSettingsFromAPI_fallback FetchResult.networkFailure scenarioBStore
      initialState rfl).1,
   (loadSettingsFromAPI_fallback FetchResult.networkFailure scenarioBStore
      initialState rfl).2.2.2.2.2.2
     { schoolName := some "Lincoln HS", slideshowInterval := none }
     rfl rfl⟩

theorem subStep_inv (s : SubState) (e : SubEvent) (h : SubInv s) :
    SubInv (subStep s e) := by
  obtain ⟨h1, h2⟩ := h
  cases e with
  | transportError =>
    by_cases hh : s.handle = true
    · simp [subStep, SubInv, hh, h1, h2]
    · simp only [Bool.not_eq_true] at hh
      have hp := h2 hh
      simp [subStep, SubInv, hh, hp]
  | openOk =>
    by_cases hh : s.handle = true
    · simp [subStep, SubInv, hh]
    · simp only [Bool.not_eq_true] at hh
      have hp := h2 hh
      simp [subStep, SubInv, hh, h1, hp]
  | timerFire =>
    by_cases hp : s.pending = 0
    · simp [subStep, SubInv, hp, h1, h2]
    · refine ⟨by simp [subStep, hp]; omega, fun hh => ?_⟩
      exact absurd (h2 (by simpa [subStep, hp] using hh)) hp

theorem runSub_inv (tr : List SubEvent) (s : SubState) (h : SubInv s) :
    SubInv (runSub tr s) := by
  induction tr generalizing s with
  | nil => exact h
  | cons e t ih => exact ih (subStep s e) (subStep_inv s e h)

/-- A transport error with the handle set (pending *or stale*)
schedules nothing: only the connection closes. -/
theorem subStep_error_handle (s : SubState) (h : s.handle = true) :
    subStep s SubEvent.transportError = { s with connOpen := false } := by
  simp [subStep, h]

/-- A transport error with a clear handle schedules exactly one
reconnect attempt. -/
theorem subStep_error_noHandle (s : SubState) (h : s.handle = false) :
    subStep s SubEvent.transportError =
      { s with connOpen := false, handle := true,
               pending := s.pending + 1, scheduled := s.scheduled + 1 } := by
  simp [subStep, h]

/-- Effect of one full error/recovery cycle from a clear-handle state:
exactly one more attempt scheduled, handle clear again. -/
theorem runSub_errCycle (s : SubState) (h : s.handle = false) :
    runSub errCycle s =
      { connOpen := true, handle := false, pending := 0,
        scheduled := s.scheduled + 1 } := by
  simp [runSub, errCycle, subStep, h]

theorem errCycles_append (n : Nat) (s : SubState) :
    runSub (errCycles (n + 1)) s = runSub (errCycles n) (runSub errCycle s) := by
  simp [errCycles, runSub, List.foldl_append]

theorem errCycles_scheduled (n : Nat) (s : SubState) (h : s.handle = false) :
    (runSub (errCycles n) s).scheduled = s.scheduled + n ∧
    (runSub (errCycles n) s).handle = false := by
  induction n generalizing s with
  | zero => exact ⟨rfl, h⟩
  | succ m ih =>
    rw [errCycles_append, runSub_errCycle s h]
    have := ih { connOpen := true, handle := false, pending := 0,
                 scheduled := s.scheduled + 1 } rfl
    refine ⟨?_, this.2⟩
    rw [this.1]
    show s.scheduled + 1 + m = s.scheduled + (m + 1)
    omega

/-- **C1, counterexample.** The claim promises exactly `N` scheduled
reconnect attempts for `N` consecutive transport errors. Run the code
on the concrete trace error → timer fires (reconnect attempt) →
error: two transport errors occurred, the second at a moment when no
timer was pending any more (it had already elapsed), yet only one
reconnect was ever scheduled — because the timer callback never clears
`reconnectTimeout`, so the stale handle blocks the second
`setTimeout`. -/
theorem reconnect_claim_counterexample :
    (runSub [SubEvent.transportError, SubEvent.timerFire,
             SubEvent.transportError] initSub).scheduled = 1 ∧
    [SubEvent.transportError, SubEvent.timerFire,
     SubEvent.transportError].count SubEvent.transportError = 2 ∧
    (runSub [SubEvent.transportError, SubEvent.timerFire] initSub).pending
      = 0 ∧
    (runSub [SubEvent.transportError, SubEvent.timerFire,
             SubEvent.transportError] initSub).handle = true := by
  refine ⟨?_, ?_, ?_, ?_⟩ <;> decide

/-- **C1, amended.** What the code does maintain: (i) never more than
one timer is pending; (ii) a transport error schedules exactly one
5000 ms reconnect attempt when `reconnectTimeout` is `null`, and none
when it is set — whether the timer is still pending or already fired
(the callback never clears the handle; only `onopen` does); hence
(iii) for `N` consecutive transport errors *each followed by a timer
expiry and a successful open*, exactly `N` attempts are scheduled —
but an error during a reconnect attempt that never opens schedules no
further attempt. On every error the connection is closed. -/
theorem reconnect_amended (tr : List SubEvent) (n : Nat) :
    (runSub tr initSub).pending ≤ 1 ∧
    (runSub (errCycles n) initSub).scheduled = n ∧
    ((runSub tr initSub).handle = true →
      (subStep (runSub tr initSub) SubEvent.transportError).scheduled =
        (runSub tr initSub).scheduled ∧
      (subStep (runSub tr initSub) SubEvent.transportError).pending =
        (runSub tr initSub).pending) ∧
    ((runSub tr initSub).handle = false →
      (subStep (runSub tr initSub) SubEvent.transportError).scheduled =
        (runSub tr initSub).scheduled + 1) ∧
    (subStep (runSub tr initSub) SubEvent.transportError).connOpen = false := by
  refine ⟨(runSub_inv tr initSub ⟨by simp [initSub], fun _ => rfl⟩).1,
    by simpa [initSub] using (errCycles_scheduled n initSub rfl).1,
    fun hh => ?_, fun hh => ?_, ?_⟩
  · rw [subStep_error_handle _ hh]
    exact ⟨rfl, rfl⟩
  · rw [subStep_error_noHandle _ hh]
  · by_cases hh : (runSub tr initSub).handle = true
    · rw [subStep_error_handle _ hh]
    · rw [subStep_error_noHandle _ (by simpa using hh)]

/-- **C1, amended, witness.** After a single error the handle is set;
a second error before anything else schedules nothing more; three
full error/recovery cycles schedule exactly three attempts. -/
theorem reconnect_amended_witness :
    (runSub [SubEvent.transportError] initSub).pending ≤ 1 ∧
    (runSub (errCycles 3) initSub).scheduled = 3 ∧
    (subStep (runSub [SubEvent.transportError] initSub)
        SubEvent.transportError).scheduled =
      (runSub [SubEvent.transportError] initSub).scheduled :=
  ⟨(reconnect_amended [SubEvent.transportError] 3).1,
   (reconnect_amended [SubEvent.transportError] 3).2.1,
   ((reconnect_amended [SubEvent.transportError] 3).2.2.1 (by decide)).1⟩

/-- **C4.** A message whose JSON fails to parse is dropped with no
state change at all — in particular no reconnect is scheduled, since
the whole client state (the subscriber's reconnect state included) is
unchanged; and a decoded message whose `type` is none of `initial`,
`settings_update`, `emergency_alert`, `emergency_cancel`,
`server_shutdown` has no handler effect either. -/
theorem onmessage_drops (st : ClientState) (t : String)
    (sb : Option SettingsBundle) (al : Option String)
    (h1 : t ≠ "initial") (h2 : t ≠ "settings_update")
    (h3 : t ≠ "emergency_alert") (h4 : t ≠ "emergency_cancel")
    (h5 : t ≠ "server_shutdown") :
    handleMessage StreamMsg.malformed st = st ∧
    handleMessage (StreamMsg.decoded t sb al) st = st := by
  refine ⟨rfl, ?_⟩
  simp [handleMessage, h1, h2, h3, h4, h5]

/-- **C4, witness.** A malformed blob and a decoded `"heartbeat"`
message both leave the concrete client state untouched. -/
theorem onmessage_drops_witness :
    handleMessage StreamMsg.malformed sampleClient = sampleClient ∧
    handleMessage (StreamMsg.decoded "heartbeat" none none) sampleClient =
      sampleClient :=
  onmessage_drops sampleClient "heartbeat" none none
    (by decide) (by decide) (by decide) (by decide) (by decide)
